import Mathlib

/-!
Verification of the Opentrons deck-conflict checker and the
calibration/attitude-transform subsystem.

Shallow embedding conventions:
* Python floats are modelled as exact rationals (ℚ); matrices as
  `Matrix (Fin n) (Fin n) ℚ`.
* `np.linalg.matrix_rank` (numerical, SVD-based) is modelled as the exact
  rank over ℚ via the classical nonzero-minor characterisation.
* Fallible code returns `Except`; a Python `assert` failure is the
  `AssertionError` value of the error type.
* The engine `StateView` consumed by the deck-conflict code is an external
  collaborator; it is modelled as a record of unconstrained accessor
  functions, so theorems quantify over every possible engine state.
-/

/-- 2x2 determinant of the block [[a, b], [c, d]]. -/
def det2 (a b c d : ℚ) : ℚ := a * d - b * c

/-- 3x3 determinant, cofactor expansion along the first row. -/
def det3 (m : Matrix (Fin 3) (Fin 3) ℚ) : ℚ :=
  m 0 0 * (m 1 1 * m 2 2 - m 1 2 * m 2 1)
    - m 0 1 * (m 1 0 * m 2 2 - m 1 2 * m 2 0)
    + m 0 2 * (m 1 0 * m 2 1 - m 1 1 * m 2 0)

/-- The 3x3 minor of a 4x4 matrix obtained by deleting row `i` and column `j`. -/
def minor4 (m : Matrix (Fin 4) (Fin 4) ℚ) (i j : Fin 4) : Matrix (Fin 3) (Fin 3) ℚ :=
  Matrix.submatrix m i.succAbove j.succAbove

/-- 4x4 determinant, cofactor expansion along the first row (the minors are
written out entrywise so that concrete instances evaluate). -/
def det4 (m : Matrix (Fin 4) (Fin 4) ℚ) : ℚ :=
  m 0 0 * det3 !![m 1 1, m 1 2, m 1 3; m 2 1, m 2 2, m 2 3; m 3 1, m 3 2, m 3 3]
    - m 0 1 * det3 !![m 1 0, m 1 2, m 1 3; m 2 0, m 2 2, m 2 3; m 3 0, m 3 2, m 3 3]
    + m 0 2 * det3 !![m 1 0, m 1 1, m 1 3; m 2 0, m 2 1, m 2 3; m 3 0, m 3 1, m 3 3]
    - m 0 3 * det3 !![m 1 0, m 1 1, m 1 2; m 2 0, m 2 1, m 2 2; m 3 0, m 3 1, m 3 2]

/-- Rank of a 3x3 rational matrix via the nonzero-minor characterisation.
Models `np.linalg.matrix_rank` on the 3x3 attitude in exact arithmetic
(the source's numerical tolerance handling is a float artefact). -/
def matrix_rank3 (m : Matrix (Fin 3) (Fin 3) ℚ) : ℕ :=
  if det3 m ≠ 0 then 3
  else if ∃ i₁ i₂ j₁ j₂ : Fin 3, i₁ < i₂ ∧ j₁ < j₂ ∧
      det2 (m i₁ j₁) (m i₁ j₂) (m i₂ j₁) (m i₂ j₂) ≠ 0 then 2
  else if ∃ i j : Fin 3, m i j ≠ 0 then 1
  else 0

/-- Rank of a 4x4 rational matrix via the nonzero-minor characterisation.
Models `np.linalg.matrix_rank` on the legacy gantry transform. -/
def matrix_rank4 (m : Matrix (Fin 4) (Fin 4) ℚ) : ℕ :=
  if det4 m ≠ 0 then 4
  else if ∃ i j : Fin 4, det3 (minor4 m i j) ≠ 0 then 3
  else if ∃ i₁ i₂ j₁ j₂ : Fin 4, i₁ < i₂ ∧ j₁ < j₂ ∧
      det2 (m i₁ j₁) (m i₁ j₂) (m i₂ j₁) (m i₂ j₂) ≠ 0 then 2
  else if ∃ i j : Fin 4, m i j ≠ 0 then 1
  else 0

theorem matrix_rank3_le_three (m : Matrix (Fin 3) (Fin 3) ℚ) : matrix_rank3 m ≤ 3 := by
  unfold matrix_rank3
  split
  · omega
  split
  · omega
  split
  · omega
  · omega

theorem matrix_rank4_le_four (m : Matrix (Fin 4) (Fin 4) ℚ) : matrix_rank4 m ≤ 4 := by
  unfold matrix_rank4
  split
  · omega
  split
  · omega
  split
  · omega
  split
  · omega
  · omega

/-- The four terminal validation states of `hardware_control.util.DeckTransformState`
(the module itself is outside the excerpt; the four tags are those the spec and
`robot_calibration.py` use). -/
inductive DeckTransformState where
  | OK
  | IDENTITY
  | BAD_CALIBRATION
  | SINGULARITY
deriving DecidableEq, Repr

/-- Modelled from the spec: `calibration_storage.types.SourceType`
(provenance enum `\x7bdefault, legacy, user-calibrated\x7d`); the file is not in
the excerpt. -/
inductive SourceType where
  | default
  | legacy
  | user
deriving DecidableEq, Repr

/-- Modelled from the spec: `calibration_storage.types.CalibrationStatus` is an
opaque pass-through status blob. -/
structure CalibrationStatus where
deriving DecidableEq, Repr

/-- Timestamps are opaque to the validators; only presence/absence matters. -/
abbrev Datetime := Nat

/-- `robot_calibration.DeckCalibration`. -/
structure DeckCalibration where
  attitude : Matrix (Fin 3) (Fin 3) ℚ
  source : SourceType
  status : CalibrationStatus
  last_modified : Option Datetime
  pipette_calibrated_with : Option String
  tiprack : Option String

/-- `robot_calibration.RobotCalibration`. -/
structure RobotCalibration where
  deck_calibration : DeckCalibration

/-- `robot_calibration.validate_attitude_deck_calibration`.
The attitude is 3x3, so `row` is 3; `not deck_cal.last_modified` in Python is
truth-testing of an `Optional[datetime]`, i.e. `None`-ness. Total (never raises). -/
def validate_attitude_deck_calibration (deck_cal : DeckCalibration) : DeckTransformState :=
  let rank := matrix_rank3 deck_cal.attitude
  if 3 ≠ rank then
    DeckTransformState.SINGULARITY
  else
    match deck_cal.last_modified with
    | none => DeckTransformState.IDENTITY
    | some _ => DeckTransformState.OK

/-- Modelled from the spec: `opentrons.util.linal.identity_deck_transform`
(linal.py is not in the excerpt); the canonical identity deck transform that
`validate_gantry_calibration` compares a 4x4 legacy transform against. -/
def identity_deck_transform : Matrix (Fin 4) (Fin 4) ℚ :=
  !![1, 0, 0, 0;
     0, 1, 0, 0;
     0, 0, 1, 0;
     0, 0, 0, 1]

/-- `robot_calibration.validate_gantry_calibration`.
`z = abs(curr_cal[2][-1])` is the absolute value of the row-2, last-column
entry; `row` is 4 for a 4x4 legacy transform. -/
def validate_gantry_calibration (gantry_cal : Matrix (Fin 4) (Fin 4) ℚ) : DeckTransformState :=
  let rank := matrix_rank4 gantry_cal
  let id_matrix := identity_deck_transform
  let z := |gantry_cal 2 3|
  let outofrange := z < 16 ∨ z > 34
  if 4 ≠ rank then
    DeckTransformState.SINGULARITY
  else if gantry_cal = id_matrix then
    DeckTransformState.IDENTITY
  else if outofrange then
    DeckTransformState.BAD_CALIBRATION
  else
    DeckTransformState.OK

/-- `robot_calibration.migrate_affine_xy_to_attitude`.
The numpy mask keeps columns 0..2 of rows 0 and 1 of the 4x4 input;
`np.put` writes those six values into positions 0..5 of a zeroed 3x3 array
and writes 1 into position 8, leaving positions 6 and 7 at 0. -/
def migrate_affine_xy_to_attitude (gantry_cal : Matrix (Fin 4) (Fin 4) ℚ) :
    Matrix (Fin 3) (Fin 3) ℚ :=
  !![gantry_cal 0 0, gantry_cal 0 1, gantry_cal 0 2;
     gantry_cal 1 0, gantry_cal 1 1, gantry_cal 1 2;
     0, 0, 1]

/-- `protocol_engine.types.ModuleModel` (the eight model enum values). -/
inductive ModuleModel where
  | TEMPERATURE_MODULE_V1
  | TEMPERATURE_MODULE_V2
  | MAGNETIC_MODULE_V1
  | MAGNETIC_MODULE_V2
  | THERMOCYCLER_MODULE_V1
  | THERMOCYCLER_MODULE_V2
  | HEATER_SHAKER_MODULE_V1
  | MAGNETIC_BLOCK_V1
deriving DecidableEq, Repr

/-- `hardware_control.modules.types.ModuleType`. -/
inductive ModuleType where
  | THERMOCYCLER
  | TEMPERATURE
  | MAGNETIC
  | HEATER_SHAKER
  | MAGNETIC_BLOCK
deriving DecidableEq, Repr

/-- The str-enum value of a `ModuleModel`. -/
def ModuleModel.value : ModuleModel → String
  | .TEMPERATURE_MODULE_V1 => "temperatureModuleV1"
  | .TEMPERATURE_MODULE_V2 => "temperatureModuleV2"
  | .MAGNETIC_MODULE_V1 => "magneticModuleV1"
  | .MAGNETIC_MODULE_V2 => "magneticModuleV2"
  | .THERMOCYCLER_MODULE_V1 => "thermocyclerModuleV1"
  | .THERMOCYCLER_MODULE_V2 => "thermocyclerModuleV2"
  | .HEATER_SHAKER_MODULE_V1 => "heaterShakerModuleV1"
  | .MAGNETIC_BLOCK_V1 => "magneticBlockV1"

/-- `ModuleModel.is_temperature_module_model`. -/
def ModuleModel.is_temperature_module_model (m : ModuleModel) : Bool :=
  m = ModuleModel.TEMPERATURE_MODULE_V1 ∨ m = ModuleModel.TEMPERATURE_MODULE_V2

/-- `ModuleModel.is_magnetic_module_model`. -/
def ModuleModel.is_magnetic_module_model (m : ModuleModel) : Bool :=
  m = ModuleModel.MAGNETIC_MODULE_V1 ∨ m = ModuleModel.MAGNETIC_MODULE_V2

/-- `ModuleModel.is_thermocycler_module_model`. -/
def ModuleModel.is_thermocycler_module_model (m : ModuleModel) : Bool :=
  m = ModuleModel.THERMOCYCLER_MODULE_V1 ∨ m = ModuleModel.THERMOCYCLER_MODULE_V2

/-- `ModuleModel.is_heater_shaker_module_model`. -/
def ModuleModel.is_heater_shaker_module_model (m : ModuleModel) : Bool :=
  m = ModuleModel.HEATER_SHAKER_MODULE_V1

/-- `ModuleModel.is_magnetic_block`. -/
def ModuleModel.is_magnetic_block (m : ModuleModel) : Bool :=
  m = ModuleModel.MAGNETIC_BLOCK_V1

/-- `protocol_engine.types.ModuleModel.as_type`. The source's guard chain is
exhaustive over the enum; its trailing `assert False` is unreachable, so the
final guard's branch is the last case here. -/
def ModuleModel.as_type (m : ModuleModel) : ModuleType :=
  if m.is_temperature_module_model then ModuleType.TEMPERATURE
  else if m.is_magnetic_module_model then ModuleType.MAGNETIC
  else if m.is_thermocycler_module_model then ModuleType.THERMOCYCLER
  else if m.is_heater_shaker_module_model then ModuleType.HEATER_SHAKER
  else ModuleType.MAGNETIC_BLOCK

/-- `hardware_control.modules.types.ModuleType.to_module_fixture_id`.
`none` models the `ValueError` raised for module types without a fixture id. -/
def ModuleType.to_module_fixture_id : ModuleType → Option String
  | ModuleType.THERMOCYCLER => some "thermocyclerModuleFront"
  | ModuleType.TEMPERATURE => some "temperatureModule"
  | ModuleType.HEATER_SHAKER => some "heaterShakerModule"
  | ModuleType.MAGNETIC_BLOCK => some "magneticBlockModule"
  | ModuleType.MAGNETIC => none

/-- `protocol_engine.types.DeckSlotLocation`. Deck slot names are modelled by
their OT-2 integer form 1..12 (`DeckSlotName.as_int`), one per slot. -/
structure DeckSlotLocation where
  slotName : Nat
deriving DecidableEq, Repr

/-- `protocol_engine.types.LabwareLocation` (union of the four location kinds). -/
inductive LabwareLocation where
  | deckSlot (location : DeckSlotLocation)
  | onModule (moduleId : String)
  | onLabware (labwareId : String)
  | offDeck
deriving DecidableEq, Repr

/-- `protocol_engine.types.WellOrigin`. -/
inductive WellOrigin where
  | TOP
  | BOTTOM
  | CENTER
deriving DecidableEq, Repr

/-- `protocol_engine.types.WellOffset`. -/
structure WellOffset where
  x : ℚ
  y : ℚ
  z : ℚ
deriving DecidableEq, Repr

/-- `protocol_engine.types.WellLocation`. -/
structure WellLocation where
  origin : WellOrigin
  offset : WellOffset
deriving DecidableEq, Repr

/-- Modelled from the spec: `NozzleConfigurationType` from
`hardware_control.instruments.nozzle_manager` (not in the excerpt); the spec
lists the tagged variants Single, Row, Column, Quadrant, Empty. -/
inductive NozzleConfigurationType where
  | SINGLE
  | ROW
  | COLUMN
  | QUADRANT
  | EMPTY
deriving DecidableEq, Repr

/-- Modelled from the spec: attached-tip geometry
(`get_attached_tip(pipette_id) -> optional TipGeometry` with length, diameter,
volume). -/
structure TipGeometry where
  length : ℚ
  diameter : ℚ
  volume : ℚ
deriving DecidableEq, Repr

/-- The `DeckItem` variants of `motion_planning.deck_conflict` (module not in
the excerpt); fields modelled from the spec data model. -/
inductive DeckItem where
  | Labware (name_for_errors : String) (highest_z : ℚ) (uri : String)
      ( is_fixed_trash : Bool)
  | HeaterShakerModule (name_for_errors : String) (highest_z_including_labware : ℚ)
  | ThermocyclerModule (name_for_errors : String) (highest_z_including_labware : ℚ)
      ( is_semi_configuration : Bool)
  | OtherModule (name_for_errors : String) (highest_z_including_labware : ℚ)
deriving DecidableEq, Repr

/-- Typed errors surfaced by the embedded deck-conflict code. `AssertionError`
models a failed Python `assert`. -/
inductive EngineError where
  | DeckConflictError
  | PartialTipMovementNotAllowedError
  | AssertionError
deriving DecidableEq, Repr

/-- Pipette accessors of the engine `StateView` (external collaborator).
`get_primary_nozzle` is exposed by the engine but never read by the code under
verification. -/
structure PipetteView where
  get_nozzle_layout_type : String → NozzleConfigurationType
  get_primary_nozzle : String → String
  get_attached_tip : String → Option TipGeometry

/-- Geometry accessors of the engine `StateView` (external collaborator).
`get_well_position_z` is the `.z` projection of `get_well_position`. -/
structure GeometryView where
  get_ancestor_slot_name : String → Nat
  get_slot_column : Nat → Nat
  get_highest_z_in_slot : DeckSlotLocation → ℚ
  get_well_position_z : String → String → WellLocation → ℚ
  get_labware_highest_z : String → ℚ
  get_highest_z_of_labware_stack : String → ℚ

/-- Labware accessors of the engine `StateView` (external collaborator).
`get_id_by_module = none` models `LabwareNotLoadedOnModuleError`. -/
structure LabwareView where
  get_location : String → LabwareLocation
  get_load_name : String → String
  get_definition_uri : String → String
  is_fixed_trash : String → Bool
  get_id_by_module : String → Option String

/-- Module accessors of the engine `StateView` (external collaborator). -/
structure ModuleView where
  get_connected_model : String → ModuleModel
  get_location : String → DeckSlotLocation
  get_overall_height : String → ℚ

/-- `engine_state.config` (only `robot_type` is consumed). -/
structure EngineConfig where
  robot_type : String

/-- The engine `StateView` snapshot consumed by the deck-conflict code. -/
structure StateView where
  config : EngineConfig
  pipettes : PipetteView
  geometry : GeometryView
  labware : LabwareView
  modules : ModuleView

/-- Modelled from the spec: `motion_planning.adjacent_slots_getters.get_east_slot`
(not in the excerpt). Slots 1..12 sit in three deck-layout columns; the slot
immediately to the east of slot `n` is `n + 1`, and the east-most column
(slots 3, 6, 9, 12 — deck-layout column 3) has no east neighbor. -/
def get_east_slot (slot : Nat) : Option Nat :=
  if slot % 3 = 0 then none else some (slot + 1)

/-- `deck_conflict._deck_slot_to_int` (`slotName.as_int()`; slot names are
already modelled by their integer form). -/
def _deck_slot_to_int (deck_slot_location : DeckSlotLocation) : Nat :=
  deck_slot_location.slotName

/-- The attached tip's length, or 0.0 if no tip is attached; computed inline in
`_check_deck_conflict_for_column_h1_config` from `get_attached_tip`. -/
def attached_tip_length (engine_state : StateView) (pipette_id : String) : ℚ :=
  match engine_state.pipettes.get_attached_tip pipette_id with
  | some pipette_tip => pipette_tip.length
  | none => 0

/-- `deck_conflict._check_deck_conflict_for_column_h1_config`. -/
def _check_deck_conflict_for_column_h1_config (engine_state : StateView)
    (pipette_id labware_id well_name : String) (well_location : WellLocation) :
    Except EngineError Unit :=
  let labware_slot := engine_state.geometry.get_ancestor_slot_name labware_id
  if engine_state.geometry.get_slot_column labware_slot = 1 then
    Except.error EngineError.PartialTipMovementNotAllowedError
  else
    match get_east_slot (_deck_slot_to_int (DeckSlotLocation.mk labware_slot)) with
    | none =>
        -- the source's `assert east_slot is not None`
        Except.error EngineError.AssertionError
    | some east_slot =>
        let east_slot_highest_z :=
          engine_state.geometry.get_highest_z_in_slot (DeckSlotLocation.mk east_slot)
        let well_location_z :=
          engine_state.geometry.get_well_position_z labware_id well_name well_location
        let tip_length := attached_tip_length engine_state pipette_id
        -- `east_slot_highest_z > well_location_z + tip_length + 10` (safety margin)
        if east_slot_highest_z > well_location_z + tip_length + 10 then
          Except.error EngineError.PartialTipMovementNotAllowedError
        else
          Except.ok ()

/-- `deck_conflict.check_safe_for_pipette_movement`. Dispatches solely on the
nozzle layout type being COLUMN (the source's primary-nozzle refinement is a
pending TODO). -/
def check_safe_for_pipette_movement (engine_state : StateView)
    (pipette_id labware_id well_name : String) (well_location : WellLocation) :
    Except EngineError Unit :=
  if engine_state.pipettes.get_nozzle_layout_type pipette_id
      = NozzleConfigurationType.COLUMN then
    _check_deck_conflict_for_column_h1_config engine_state pipette_id labware_id
      well_name well_location
  else
    Except.ok ()

/-- `deck_conflict._map_labware`. -/
def _map_labware (engine_state : StateView) (labware_id : String) :
    Option (Nat × DeckItem) :=
  match engine_state.labware.get_location labware_id with
  | LabwareLocation.deckSlot location_from_engine =>
      some (location_from_engine.slotName,
        DeckItem.Labware
          (engine_state.labware.get_load_name labware_id)
          (engine_state.geometry.get_labware_highest_z labware_id)
          (engine_state.labware.get_definition_uri labware_id)
          (engine_state.labware.is_fixed_trash labware_id))
  | LabwareLocation.onModule _ => none
  | LabwareLocation.onLabware _ => none
  | LabwareLocation.offDeck => none

/-- `deck_conflict._get_module_highest_z_including_labware`. -/
def _get_module_highest_z_including_labware (engine_state : StateView)
    (module_id : String) : ℚ :=
  match engine_state.labware.get_id_by_module module_id with
  | none => engine_state.modules.get_overall_height module_id
  | some labware_id => engine_state.geometry.get_highest_z_of_labware_stack labware_id

/-- `deck_conflict._map_module`. Every variant is emitted at
`engine_state.modules.get_location(module_id).slotName`. -/
def _map_module (engine_state : StateView) (module_id : String) :
    Option (Nat × DeckItem) :=
  let module_model := engine_state.modules.get_connected_model module_id
  let module_type := module_model.as_type
  let mapped_location := (engine_state.modules.get_location module_id).slotName
  let name_for_errors := module_model.value
  let highest_z_including_labware :=
    _get_module_highest_z_including_labware engine_state module_id
  if module_type = ModuleType.HEATER_SHAKER then
    some (mapped_location,
      DeckItem.HeaterShakerModule name_for_errors highest_z_including_labware)
  else if module_type = ModuleType.THERMOCYCLER then
    some (mapped_location,
      DeckItem.ThermocyclerModule name_for_errors highest_z_including_labware false)
  else
    some (mapped_location,
      DeckItem.OtherModule name_for_errors highest_z_including_labware)

/-- The new item of `deck_conflict.check` (its two mutually exclusive overloads). -/
inductive NewItemId where
  | new_labware_id (id : String)
  | new_module_id (id : String)

/-- Accumulating the `existing_items` dict; the source asserts
`existing_location not in existing_items` before each insertion. -/
def _build_existing_items :
    List (Nat × DeckItem) → List (Nat × DeckItem) →
    Except EngineError (List (Nat × DeckItem))
  | [], acc => Except.ok acc
  | (existing_location, existing_item) :: rest, acc =>
      if acc.any (fun p => p.1 = existing_location) then
        Except.error EngineError.AssertionError
      else
        _build_existing_items rest (acc ++ [(existing_location, existing_item)])

/-- `deck_conflict.check`. The wrapped checker
(`motion_planning.deck_conflict.check`, not in the excerpt) is passed as an
explicit collaborator argument taking the existing items, the new item, the
new location and the robot type. -/
def check
    (wrapped_check : List (Nat × DeckItem) → DeckItem → Nat → String →
      Except EngineError Unit)
    (engine_state : StateView)
    (existing_labware_ids existing_module_ids : List String)
    (new_item_id : NewItemId) : Except EngineError Unit :=
  let new_location_and_item :=
    match new_item_id with
    | NewItemId.new_labware_id id => _map_labware engine_state id
    | NewItemId.new_module_id id => _map_module engine_state id
  match new_location_and_item with
  | none =>
      -- The new item should be excluded from deck conflict checking.
      Except.ok ()
  | some (new_location, new_item) =>
      let mapped_existing_labware :=
        existing_labware_ids.filterMap (_map_labware engine_state)
      let mapped_existing_modules :=
        existing_module_ids.filterMap (_map_module engine_state)
      match _build_existing_items
          (mapped_existing_labware ++ mapped_existing_modules) [] with
      | Except.error e => Except.error e
      | Except.ok existing_items =>
          wrapped_check existing_items new_item new_location
            engine_state.config.robot_type

/-- `robot_calibration.RobotCalibrationProvider`, as an explicit state record.
`_load_result` is modelled from the spec: `load()` reads persisted storage (an
external collaborator, not in scope), so its current answer is carried as a
state field. `_validate_cache` is the single-entry `lru_cache(1)` on
`_validate`; `_rank_compute_count` is a call-count spy on the underlying
rank-based validation (it increments exactly when
`validate_attitude_deck_calibration` is actually recomputed). -/
structure RobotCalibrationProvider where
  _robot_calibration : RobotCalibration
  _load_result : RobotCalibration
  _validate_cache : Option DeckTransformState
  _rank_compute_count : Nat

/-- `RobotCalibrationProvider.validate_calibration` (via the cached
`_validate`): returns the cached result on a hit; otherwise computes, fills the
cache, and bumps the spy counter. -/
def RobotCalibrationProvider.validate_calibration (p : RobotCalibrationProvider) :
    DeckTransformState × RobotCalibrationProvider :=
  match p._validate_cache with
  | some result => (result, p)
  | none =>
      let result :=
        validate_attitude_deck_calibration p._robot_calibration.deck_calibration
      (result, ⟨p._robot_calibration, p._load_result, some result,
        p._rank_compute_count + 1⟩)

/-- `RobotCalibrationProvider.set_robot_calibration`: clears the cache and
replaces the in-memory calibration. -/
def RobotCalibrationProvider.set_robot_calibration (p : RobotCalibrationProvider)
    (robot_calibration : RobotCalibration) : RobotCalibrationProvider :=
  ⟨robot_calibration, p._load_result, none, p._rank_compute_count⟩

/-- `RobotCalibrationProvider.reset_robot_calibration`: clears the cache and
reloads from persisted storage (`load()`). -/
def RobotCalibrationProvider.reset_robot_calibration (p : RobotCalibrationProvider) :
    RobotCalibrationProvider :=
  ⟨p._load_result, p._load_result, none, p._rank_compute_count⟩

/-- The identity 3x3 attitude (the synthesized default attitude). -/
def attitude3_id : Matrix (Fin 3) (Fin 3) ℚ :=
  !![1, 0, 0;
     0, 1, 0;
     0, 0, 1]

/-- A freshly-synthesized default deck calibration: identity attitude and no
`last_modified` timestamp. -/
def deck_cal_default : DeckCalibration :=
  ⟨attitude3_id, SourceType.default, ⟨⟩, none, none, none⟩

/-- A full-rank, non-identity legacy transform whose Z-translation entry is -20. -/
def gantry_z_neg20 : Matrix (Fin 4) (Fin 4) ℚ :=
  !![1, 0, 0, 0;
     0, 1, 0, 0;
     0, 0, 1, -20;
     0, 0, 0, 1]

/-- A full-rank, non-identity legacy transform whose Z-translation entry is -10. -/
def gantry_z_neg10 : Matrix (Fin 4) (Fin 4) ℚ :=
  !![1, 0, 0, 0;
     0, 1, 0, 0;
     0, 0, 1, -10;
     0, 0, 0, 1]

/-- A full-rank, non-identity legacy transform whose Z-translation entry is 25. -/
def gantry_z_25 : Matrix (Fin 4) (Fin 4) ℚ :=
  !![1, 0, 0, 0;
     0, 1, 0, 0;
     0, 0, 1, 25;
     0, 0, 0, 1]

/-- C1: for every DeckCalibration, `validate_attitude_deck_calibration` returns
exactly one of SINGULARITY, IDENTITY, OK, decided in this order: if the rank of
the attitude is less than its row count (3) it returns SINGULARITY; otherwise,
if `last_modified` is None it returns IDENTITY (regardless of the attitude's
contents); otherwise OK. As a total Lean function it never raises. -/
theorem C1_validate_attitude_trichotomy (deck_cal : DeckCalibration) :
    (validate_attitude_deck_calibration deck_cal = DeckTransformState.SINGULARITY ∨
     validate_attitude_deck_calibration deck_cal = DeckTransformState.IDENTITY ∨
     validate_attitude_deck_calibration deck_cal = DeckTransformState.OK) ∧
    (matrix_rank3 deck_cal.attitude < 3 →
      validate_attitude_deck_calibration deck_cal = DeckTransformState.SINGULARITY) ∧
    (matrix_rank3 deck_cal.attitude = 3 → deck_cal.last_modified = none →
      validate_attitude_deck_calibration deck_cal = DeckTransformState.IDENTITY) ∧
    (matrix_rank3 deck_cal.attitude = 3 → deck_cal.last_modified ≠ none →
      validate_attitude_deck_calibration deck_cal = DeckTransformState.OK) := by
  have hle := matrix_rank3_le_three deck_cal.attitude
  unfold validate_attitude_deck_calibration
  by_cases h : matrix_rank3 deck_cal.attitude = 3
  · have h3 : ¬ (3 ≠ matrix_rank3 deck_cal.attitude) := by omega
    rcases hlm : deck_cal.last_modified with _ | t <;> simp [hlm, h3, h]
  · have h3 : 3 ≠ matrix_rank3 deck_cal.attitude := by omega
    rcases hlm : deck_cal.last_modified with _ | t <;> simp [hlm, h3, h]

/-- A matrix with nonvanishing determinant has full rank 3. -/
theorem matrix_rank3_of_det3 (m : Matrix (Fin 3) (Fin 3) ℚ) (h : det3 m ≠ 0) :
    matrix_rank3 m = 3 := by
  unfold matrix_rank3
  rw [if_pos h]

/-- A matrix with nonvanishing determinant has full rank 4. -/
theorem matrix_rank4_of_det4 (m : Matrix (Fin 4) (Fin 4) ℚ) (h : det4 m ≠ 0) :
    matrix_rank4 m = 4 := by
  unfold matrix_rank4
  rw [if_pos h]

/-- Witness for C1 at the default calibration: full-rank identity attitude with
`last_modified = None` classifies as IDENTITY. -/
theorem C1_witness :
    matrix_rank3 deck_cal_default.attitude = 3 ∧
    validate_attitude_deck_calibration deck_cal_default = DeckTransformState.IDENTITY :=
  ⟨matrix_rank3_of_det3 _ (by norm_num [det3, deck_cal_default, attitude3_id]),
   (C1_validate_attitude_trichotomy deck_cal_default).2.2.1
     (matrix_rank3_of_det3 _ (by norm_num [det3, deck_cal_default, attitude3_id])) rfl⟩

/-- Branch lemma: rank deficiency yields SINGULARITY. -/
theorem validate_gantry_singularity (m : Matrix (Fin 4) (Fin 4) ℚ)
    (h : matrix_rank4 m ≠ 4) :
    validate_gantry_calibration m = DeckTransformState.SINGULARITY := by
  have h1 : 4 ≠ matrix_rank4 m := fun e => h e.symm
  simp [validate_gantry_calibration, h1]

/-- Branch lemma: a full-rank transform equal to the canonical identity yields
IDENTITY. -/
theorem validate_gantry_identity (m : Matrix (Fin 4) (Fin 4) ℚ)
    (h4 : matrix_rank4 m = 4) (hid : m = identity_deck_transform) :
    validate_gantry_calibration m = DeckTransformState.IDENTITY := by
  have h1 : ¬ (4 ≠ matrix_rank4 m) := by omega
  simp only [validate_gantry_calibration]
  rw [if_neg h1, if_pos hid]

/-- Branch lemma: full-rank, non-identity, |z| outside [16, 34] yields
BAD_CALIBRATION. -/
theorem validate_gantry_bad (m : Matrix (Fin 4) (Fin 4) ℚ)
    (h4 : matrix_rank4 m = 4) (hid : m ≠ identity_deck_transform)
    (hz : |m 2 3| < 16 ∨ |m 2 3| > 34) :
    validate_gantry_calibration m = DeckTransformState.BAD_CALIBRATION := by
  have h1 : ¬ (4 ≠ matrix_rank4 m) := by omega
  simp [validate_gantry_calibration, h1, hid, hz]

/-- Branch lemma: full-rank, non-identity, |z| inside [16, 34] yields OK. -/
theorem validate_gantry_ok (m : Matrix (Fin 4) (Fin 4) ℚ)
    (h4 : matrix_rank4 m = 4) (hid : m ≠ identity_deck_transform)
    (hz1 : 16 ≤ |m 2 3|) (hz2 : |m 2 3| ≤ 34) :
    validate_gantry_calibration m = DeckTransformState.OK := by
  have h1 : ¬ (4 ≠ matrix_rank4 m) := by omega
  have h3 : ¬ (|m 2 3| < 16 ∨ |m 2 3| > 34) := by
    push_neg
    exact ⟨hz1, hz2⟩
  simp [validate_gantry_calibration, h1, hid, h3]

theorem gantry_z_neg20_rank : matrix_rank4 gantry_z_neg20 = 4 :=
  matrix_rank4_of_det4 _ (by norm_num [det4, det3, gantry_z_neg20])

theorem gantry_z_neg20_ne_id : gantry_z_neg20 ≠ identity_deck_transform := by
  intro h
  have h2 := congrFun (congrFun h 2) 3
  norm_num [gantry_z_neg20, identity_deck_transform] at h2

theorem gantry_z_neg10_rank : matrix_rank4 gantry_z_neg10 = 4 :=
  matrix_rank4_of_det4 _ (by norm_num [det4, det3, gantry_z_neg10])

theorem gantry_z_neg10_ne_id : gantry_z_neg10 ≠ identity_deck_transform := by
  intro h
  have h2 := congrFun (congrFun h 2) 3
  norm_num [gantry_z_neg10, identity_deck_transform] at h2

theorem gantry_z_25_rank : matrix_rank4 gantry_z_25 = 4 :=
  matrix_rank4_of_det4 _ (by norm_num [det4, det3, gantry_z_25])

theorem gantry_z_25_ne_id : gantry_z_25 ≠ identity_deck_transform := by
  intro h
  have h2 := congrFun (congrFun h 2) 3
  norm_num [gantry_z_25, identity_deck_transform] at h2

theorem validate_gantry_at_z_neg20 :
    validate_gantry_calibration gantry_z_neg20 = DeckTransformState.OK :=
  validate_gantry_ok _ gantry_z_neg20_rank gantry_z_neg20_ne_id
    (by norm_num [gantry_z_neg20]) (by norm_num [gantry_z_neg20])

theorem validate_gantry_at_z_neg10 :
    validate_gantry_calibration gantry_z_neg10 = DeckTransformState.BAD_CALIBRATION :=
  validate_gantry_bad _ gantry_z_neg10_rank gantry_z_neg10_ne_id
    (by norm_num [gantry_z_neg10])

/-- C2 counterexample: the full-rank non-identity transform with Z-translation
-20 has its Z-translation component outside the band [16, 34], yet
`validate_gantry_calibration` classifies it OK, not BAD_CALIBRATION — the code
applies the band to the absolute value of the Z entry. -/
theorem C2_counterexample :
    matrix_rank4 gantry_z_neg20 = 4 ∧
    gantry_z_neg20 ≠ identity_deck_transform ∧
    (gantry_z_neg20 2 3 < 16 ∨ gantry_z_neg20 2 3 > 34) ∧
    validate_gantry_calibration gantry_z_neg20 ≠ DeckTransformState.BAD_CALIBRATION ∧
    validate_gantry_calibration gantry_z_neg20 = DeckTransformState.OK := by
  refine ⟨gantry_z_neg20_rank, gantry_z_neg20_ne_id, ?_, ?_, validate_gantry_at_z_neg20⟩
  · norm_num [gantry_z_neg20]
  · rw [validate_gantry_at_z_neg20]
    intro h
    cases h

/-- C2 (amended): for every 4x4 legacy gantry transform,
`validate_gantry_calibration` checks in priority order: rank deficiency gives
SINGULARITY; else equality with the canonical identity gives IDENTITY; else an
absolute Z-translation outside [16, 34] gives BAD_CALIBRATION; else OK. -/
theorem C2_gantry_priority_amended (m : Matrix (Fin 4) (Fin 4) ℚ) :
    (matrix_rank4 m < 4 →
      validate_gantry_calibration m = DeckTransformState.SINGULARITY) ∧
    (matrix_rank4 m = 4 → m = identity_deck_transform →
      validate_gantry_calibration m = DeckTransformState.IDENTITY) ∧
    (matrix_rank4 m = 4 → m ≠ identity_deck_transform →
      (|m 2 3| < 16 ∨ |m 2 3| > 34) →
      validate_gantry_calibration m = DeckTransformState.BAD_CALIBRATION) ∧
    (matrix_rank4 m = 4 → m ≠ identity_deck_transform →
      16 ≤ |m 2 3| → |m 2 3| ≤ 34 →
      validate_gantry_calibration m = DeckTransformState.OK) := by
  refine ⟨?_, ?_, ?_, ?_⟩
  · intro h
    exact validate_gantry_singularity m (by omega)
  · exact validate_gantry_identity m
  · exact validate_gantry_bad m
  · exact validate_gantry_ok m

/-- Witness for the amended C2 at the transform with Z-translation 25:
full-rank, non-identity, |25| inside the band, classified OK. -/
theorem C2_witness :
    validate_gantry_calibration gantry_z_25 = DeckTransformState.OK :=
  (C2_gantry_priority_amended gantry_z_25).2.2.2 gantry_z_25_rank gantry_z_25_ne_id
    (by norm_num [gantry_z_25]) (by norm_num [gantry_z_25])

/-- C10: the [16, 34] band is applied to the absolute value of the Z-translation
entry (row 2, last column): a full-rank non-identity transform with Z = -20 is
OK, one with Z = -10 is BAD_CALIBRATION. -/
theorem C10_band_on_absolute_z :
    matrix_rank4 gantry_z_neg20 = 4 ∧
    gantry_z_neg20 ≠ identity_deck_transform ∧
    gantry_z_neg20 2 3 = -20 ∧
    validate_gantry_calibration gantry_z_neg20 = DeckTransformState.OK ∧
    matrix_rank4 gantry_z_neg10 = 4 ∧
    gantry_z_neg10 ≠ identity_deck_transform ∧
    gantry_z_neg10 2 3 = -10 ∧
    validate_gantry_calibration gantry_z_neg10 = DeckTransformState.BAD_CALIBRATION :=
  ⟨gantry_z_neg20_rank, gantry_z_neg20_ne_id, rfl, validate_gantry_at_z_neg20,
   gantry_z_neg10_rank, gantry_z_neg10_ne_id, rfl, validate_gantry_at_z_neg10⟩

/-- C7: `migrate_affine_xy_to_attitude` is a pure function of the 4x4 input
whose 3x3 output copies the top-left 2x2 block (entries (0,0),(0,1),(1,0),(1,1))
and the translation column (column 2 of the output, from the positionally
corresponding column-2 entries of the source's upper-left 2x3 block) exactly,
and whose bottom row is always [0, 0, 1]. -/
theorem C7_migrate_block_copy (gantry_cal : Matrix (Fin 4) (Fin 4) ℚ) :
    migrate_affine_xy_to_attitude gantry_cal 0 0 = gantry_cal 0 0 ∧
    migrate_affine_xy_to_attitude gantry_cal 0 1 = gantry_cal 0 1 ∧
    migrate_affine_xy_to_attitude gantry_cal 0 2 = gantry_cal 0 2 ∧
    migrate_affine_xy_to_attitude gantry_cal 1 0 = gantry_cal 1 0 ∧
    migrate_affine_xy_to_attitude gantry_cal 1 1 = gantry_cal 1 1 ∧
    migrate_affine_xy_to_attitude gantry_cal 1 2 = gantry_cal 1 2 ∧
    migrate_affine_xy_to_attitude gantry_cal 2 0 = 0 ∧
    migrate_affine_xy_to_attitude gantry_cal 2 1 = 0 ∧
    migrate_affine_xy_to_attitude gantry_cal 2 2 = 1 := by
  refine ⟨?_, ?_, ?_, ?_, ?_, ?_, ?_, ?_, ?_⟩ <;> rfl

/-- C6: per provider instance, a second `validate_calibration` with no
intervening set/reset returns the identical result without recomputing the
rank-based validation (the spy counter does not advance), and both
`set_robot_calibration` and `reset_robot_calibration` clear the cache so that
the next `validate_calibration` validates the newly installed calibration. -/
theorem C6_provider_cache_discipline (p : RobotCalibrationProvider)
    (rc : RobotCalibration) :
    (p.validate_calibration.2.validate_calibration.1 = p.validate_calibration.1 ∧
     p.validate_calibration.2.validate_calibration.2._rank_compute_count =
       p.validate_calibration.2._rank_compute_count) ∧
    ((p.set_robot_calibration rc)._validate_cache = none ∧
     (p.set_robot_calibration rc).validate_calibration.1 =
       validate_attitude_deck_calibration rc.deck_calibration) ∧
    (p.reset_robot_calibration._validate_cache = none ∧
     p.reset_robot_calibration.validate_calibration.1 =
       validate_attitude_deck_calibration p._load_result.deck_calibration) := by
  rcases p with ⟨rcal, lr, cache, n⟩
  cases cache <;>
    simp [RobotCalibrationProvider.validate_calibration,
      RobotCalibrationProvider.set_robot_calibration,
      RobotCalibrationProvider.reset_robot_calibration]

/-- A default well location (top center, zero offset). -/
def wl0 : WellLocation := ⟨WellOrigin.TOP, ⟨0, 0, 0⟩⟩

def engine_config0 : EngineConfig := ⟨"OT-3 Standard"⟩

/-- A pipette view in COLUMN nozzle configuration with the given primary
nozzle and no attached tip. -/
def pipette_view_column (primary : String) : PipetteView :=
  ⟨fun _ => NozzleConfigurationType.COLUMN, fun _ => primary, fun _ => none⟩

/-- A pipette view in SINGLE nozzle configuration. -/
def pipette_view_single : PipetteView :=
  ⟨fun _ => NozzleConfigurationType.SINGLE, fun _ => "H1", fun _ => none⟩

/-- A geometry view in which every labware's ancestor slot is `slot`, slot
columns follow the three-column deck layout, every slot's highest occupied Z is
`east_z`, and all well positions and labware heights are 0. -/
def geometry_view_at (slot : Nat) (east_z : ℚ) : GeometryView :=
  ⟨fun _ => slot, fun s => (s - 1) % 3 + 1, fun _ => east_z, fun _ _ _ => 0,
   fun _ => 0, fun _ => 0⟩

/-- A labware view in which every labware is off-deck and no module carries
labware. -/
def labware_view_off_deck : LabwareView :=
  ⟨fun _ => LabwareLocation.offDeck, fun _ => "corning_96_wellplate",
   fun _ => "opentrons/corning_96_wellplate/1", fun _ => false, fun _ => none⟩

/-- A module view in which every module is a magnetic module in slot 1. -/
def module_view_magnetic : ModuleView :=
  ⟨fun _ => ModuleModel.MAGNETIC_MODULE_V1, fun _ => ⟨1⟩, fun _ => 0⟩

/-- A module view in which every module is a Thermocycler GEN2 whose nominal
load slot is `slot`, with overall height 0. -/
def module_view_thermocycler_at (slot : Nat) : ModuleView :=
  ⟨fun _ => ModuleModel.THERMOCYCLER_MODULE_V2, fun _ => ⟨slot⟩, fun _ => 0⟩

/-- COLUMN pipette targeting a labware in slot 6 (deck column 3, east-most). -/
def state_column3 : StateView :=
  ⟨engine_config0, pipette_view_column "H1", geometry_view_at 6 0,
   labware_view_off_deck, module_view_magnetic⟩

/-- COLUMN pipette with primary nozzle A1 (not the front-most row) targeting a
labware in slot 4 (deck column 1). -/
def state_column1_nonfront : StateView :=
  ⟨engine_config0, pipette_view_column "A1", geometry_view_at 4 0,
   labware_view_off_deck, module_view_magnetic⟩

/-- COLUMN pipette targeting a labware in slot 5 (deck column 2) with a
100 mm-tall occupant in the east neighbor slot 6. -/
def state_column2_tall_east : StateView :=
  ⟨engine_config0, pipette_view_column "H1", geometry_view_at 5 100,
   labware_view_off_deck, module_view_magnetic⟩

/-- SINGLE-configuration pipette; everything else benign. -/
def state_single_nozzle : StateView :=
  ⟨engine_config0, pipette_view_single, geometry_view_at 5 0,
   labware_view_off_deck, module_view_magnetic⟩

/-- A state whose only module is a thermocycler nominally loaded at `slot`. -/
def state_thermocycler_at (slot : Nat) : StateView :=
  ⟨engine_config0, pipette_view_single, geometry_view_at 5 0,
   labware_view_off_deck, module_view_thermocycler_at slot⟩

/-- C3: with a Column-configured pipette, a target in deck column 3 with no
east neighbor at all (so certainly no taller one) does not succeed: the code
reaches `assert east_slot is not None` and fails with AssertionError, although
its own error message documents columns 2 and 3 as allowed. Evaluated at the
failing input (target slot 6). -/
theorem C3_column3_assertion_failure :
    state_column3.pipettes.get_nozzle_layout_type "p" =
      NozzleConfigurationType.COLUMN ∧
    state_column3.geometry.get_slot_column
      (state_column3.geometry.get_ancestor_slot_name "lw") = 3 ∧
    check_safe_for_pipette_movement state_column3 "p" "lw" "A1" wl0 =
      Except.error EngineError.AssertionError :=
  ⟨rfl, rfl, rfl⟩

/-- C4: for a Column-configured pipette targeting a labware outside deck
column 1 whose slot has an east neighbor,
`check_safe_for_pipette_movement` raises PartialTipMovementNotAllowedError iff
the highest occupied Z of the east neighbor slot strictly exceeds the target
well's computed Z plus the attached tip's length (0 if no tip) plus the fixed
10 mm safety margin. -/
theorem C4_east_height_guard (s : StateView)
    (pipette_id labware_id well_name : String) (well_location : WellLocation)
    (east_slot : Nat)
    (hcfg : s.pipettes.get_nozzle_layout_type pipette_id =
      NozzleConfigurationType.COLUMN)
    (hcol : s.geometry.get_slot_column
      (s.geometry.get_ancestor_slot_name labware_id) ≠ 1)
    (heast : get_east_slot (s.geometry.get_ancestor_slot_name labware_id) =
      some east_slot) :
    check_safe_for_pipette_movement s pipette_id labware_id well_name
        well_location =
      Except.error EngineError.PartialTipMovementNotAllowedError ↔
    s.geometry.get_highest_z_in_slot ⟨east_slot⟩ >
      s.geometry.get_well_position_z labware_id well_name well_location +
        attached_tip_length s pipette_id + 10 := by
  unfold check_safe_for_pipette_movement
  rw [if_pos hcfg]
  unfold _check_deck_conflict_for_column_h1_config _deck_slot_to_int
  rw [if_neg hcol]
  simp only [heast]
  by_cases hgt : s.geometry.get_highest_z_in_slot ⟨east_slot⟩ >
      s.geometry.get_well_position_z labware_id well_name well_location +
        attached_tip_length s pipette_id + 10 <;>
    simp [hgt]

/-- Witness for C4: target in slot 5 (column 2), east slot 6 occupied up to
Z = 100 while the pipetting point plus margin is 10, so the movement is
rejected. -/
theorem C4_witness :
    check_safe_for_pipette_movement state_column2_tall_east "p" "lw" "A1" wl0 =
      Except.error EngineError.PartialTipMovementNotAllowedError :=
  (C4_east_height_guard state_column2_tall_east "p" "lw" "A1" wl0 6 rfl
      (by decide) rfl).mpr
    (by norm_num [state_column2_tall_east, geometry_view_at, pipette_view_column,
      attached_tip_length])

/-- C5 counterexample: a Column-configured pipette whose primary nozzle is A1
(not the front-most row) is still checked: targeting a column-1 slot raises
PartialTipMovementNotAllowedError, although the claim says non-front-primary
Column configurations return without raising and perform no check. -/
theorem C5_counterexample :
    state_column1_nonfront.pipettes.get_nozzle_layout_type "p" =
      NozzleConfigurationType.COLUMN ∧
    state_column1_nonfront.pipettes.get_primary_nozzle "p" = "A1" ∧
    "A1" ≠ "H1" ∧
    check_safe_for_pipette_movement state_column1_nonfront "p" "lw" "A1" wl0 =
      Except.error EngineError.PartialTipMovementNotAllowedError :=
  ⟨rfl, rfl, by decide, rfl⟩

/-- C5 (amended): `check_safe_for_pipette_movement` performs its collision
checks exactly when the nozzle layout type is Column, regardless of the primary
nozzle (the front-primary restriction is a pending TODO in the source); for
Single, Row, Quadrant and Empty configurations it returns without raising and
performs no check. -/
theorem C5_dispatch_on_column_only (s : StateView)
    (pipette_id labware_id well_name : String) (well_location : WellLocation) :
    (s.pipettes.get_nozzle_layout_type pipette_id ≠
        NozzleConfigurationType.COLUMN →
      check_safe_for_pipette_movement s pipette_id labware_id well_name
        well_location = Except.ok ()) ∧
    (s.pipettes.get_nozzle_layout_type pipette_id =
        NozzleConfigurationType.COLUMN →
      check_safe_for_pipette_movement s pipette_id labware_id well_name
        well_location =
      _check_deck_conflict_for_column_h1_config s pipette_id labware_id
        well_name well_location) := by
  constructor <;> intro h <;> simp [check_safe_for_pipette_movement, h]

/-- Witness for the amended C5: a SINGLE-configuration pipette is never
checked — the call returns without raising. -/
theorem C5_witness :
    check_safe_for_pipette_movement state_single_nozzle "p" "lw" "A1" wl0 =
      Except.ok () :=
  (C5_dispatch_on_column_only state_single_nozzle "p" "lw" "A1" wl0).1
    (by decide)

/-- C8 counterexample: a loaded thermocycler is mapped to its nominal load slot
as reported by the engine state, not to a fixed front fixture slot — moving the
nominal load slot from 1 to 2 moves the emitted DeckItem's slot with it (while
the emitted variant is ThermocyclerModule, and the fixture id of the
thermocycler type is indeed the front fixture). -/
theorem C8_counterexample :
    (state_thermocycler_at 1).modules.get_connected_model "m" =
      ModuleModel.THERMOCYCLER_MODULE_V2 ∧
    ModuleModel.THERMOCYCLER_MODULE_V2.as_type = ModuleType.THERMOCYCLER ∧
    ModuleType.to_module_fixture_id ModuleType.THERMOCYCLER =
      some "thermocyclerModuleFront" ∧
    (_map_module (state_thermocycler_at 1) "m").map Prod.fst = some 1 ∧
    (_map_module (state_thermocycler_at 2) "m").map Prod.fst = some 2 ∧
    (1 : Nat) ≠ 2 :=
  ⟨rfl, rfl, rfl, rfl, rfl, by decide⟩

/-- C8 (amended): `_map_module` always emits the DeckItem at the module's
nominal load slot reported by the engine state (thermocyclers included), and
the emitted variant is selected by the module's kind: HeaterShakerModule for
heater-shakers, ThermocyclerModule (with `is_semi_configuration = False`) for
thermocyclers, OtherModule for everything else. -/
theorem C8_map_module_amended (s : StateView) (module_id : String) :
    ((_map_module s module_id).map Prod.fst =
      some (s.modules.get_location module_id).slotName) ∧
    ((s.modules.get_connected_model module_id).as_type =
        ModuleType.THERMOCYCLER →
      _map_module s module_id =
        some ((s.modules.get_location module_id).slotName,
          DeckItem.ThermocyclerModule
            (s.modules.get_connected_model module_id).value
            (_get_module_highest_z_including_labware s module_id) false)) ∧
    ((s.modules.get_connected_model module_id).as_type =
        ModuleType.HEATER_SHAKER →
      _map_module s module_id =
        some ((s.modules.get_location module_id).slotName,
          DeckItem.HeaterShakerModule
            (s.modules.get_connected_model module_id).value
            (_get_module_highest_z_including_labware s module_id))) ∧
    ((s.modules.get_connected_model module_id).as_type ≠
        ModuleType.THERMOCYCLER →
     (s.modules.get_connected_model module_id).as_type ≠
        ModuleType.HEATER_SHAKER →
      _map_module s module_id =
        some ((s.modules.get_location module_id).slotName,
          DeckItem.OtherModule
            (s.modules.get_connected_model module_id).value
            (_get_module_highest_z_including_labware s module_id))) := by
  refine ⟨?_, ?_, ?_, ?_⟩
  · by_cases h1 : (s.modules.get_connected_model module_id).as_type =
        ModuleType.HEATER_SHAKER <;>
      by_cases h2 : (s.modules.get_connected_model module_id).as_type =
        ModuleType.THERMOCYCLER <;>
      simp [_map_module, h1, h2]
  · intro ht
    have hhs : ¬ ((s.modules.get_connected_model module_id).as_type =
        ModuleType.HEATER_SHAKER) := by simp [ht]
    simp [_map_module, ht, hhs]
  · intro hhs
    simp [_map_module, hhs]
  · intro ht hhs
    simp [_map_module, ht, hhs]

/-- Witness for the amended C8: the thermocycler nominally loaded at slot 1 is
emitted at slot 1 as a ThermocyclerModule item. -/
theorem C8_witness :
    _map_module (state_thermocycler_at 1) "m" =
      some (1, DeckItem.ThermocyclerModule "thermocyclerModuleV2" 0 false) :=
  (C8_map_module_amended (state_thermocycler_at 1) "m").2.1 rfl

/-- C9: `_map_labware` emits a (slot, Labware) pair exactly when the labware's
location is a direct deck-slot placement (emitting nothing for
on-module, on-labware and off-deck locations), and when the newly added item of
`check` maps to nothing, `check` returns without raising and without consulting
the existing items or the wrapped checker. -/
theorem C9_map_labware_slot_only (s : StateView) (labware_id : String) :
    ((∃ loc, s.labware.get_location labware_id = LabwareLocation.deckSlot loc) ↔
      (_map_labware s labware_id).isSome) ∧
    (∀ loc, s.labware.get_location labware_id = LabwareLocation.deckSlot loc →
      _map_labware s labware_id = some (loc.slotName,
        DeckItem.Labware (s.labware.get_load_name labware_id)
          (s.geometry.get_labware_highest_z labware_id)
          (s.labware.get_definition_uri labware_id)
          (s.labware.is_fixed_trash labware_id))) ∧
    (_map_labware s labware_id = none →
      ∀ wrapped_check existing_labware_ids existing_module_ids,
        check wrapped_check s existing_labware_ids existing_module_ids
          (NewItemId.new_labware_id labware_id) = Except.ok ()) := by
  refine ⟨?_, ?_, ?_⟩
  · cases hl : s.labware.get_location labware_id <;> simp [_map_labware, hl]
  · intro loc hl
    simp [_map_labware, hl]
  · intro hnone wrapped_check ex_lw ex_mod
    simp [check, hnone]

/-- A wrapped checker that rejects everything; used to witness that it is never
consulted when the new item is excluded from checking. -/
def wrapped_check_reject : List (Nat × DeckItem) → DeckItem → Nat → String →
    Except EngineError Unit :=
  fun _ _ _ _ => Except.error EngineError.DeckConflictError

/-- Witness for C9: an off-deck new labware short-circuits `check` to success
even with existing items present and an always-rejecting wrapped checker. -/
theorem C9_witness :
    check wrapped_check_reject state_single_nozzle ["a", "b"] ["c"]
      (NewItemId.new_labware_id "x") = Except.ok () :=
  (C9_map_labware_slot_only state_single_nozzle "x").2.2 rfl
    wrapped_check_reject ["a", "b"] ["c"]
